import Mathlib

/-!
Verification development for the M32 business-intelligence copilot client.

The definitions below are a shallow embedding of the TypeScript source:
the chat-title heuristics of frontend/src/utils/chatTitles.ts and the
chat-page send/rename handlers of the chat page component.  Randomness
(JS Math.floor(Math.random() * n), a uniform index in [0, n)) is modelled
by a natural-number parameter r used as r % n.  Fallible API calls are
modelled as Except values passed in by the caller.  Strings are ASCII in
all the string constants of the source, so the ASCII character classes
below coincide with the JS semantics on every input the theorems touch.
-/

namespace M32

/-! ### ASCII character classes (JS regex and string semantics) -/

def isUpperAZ (c : Char) : Bool := 'A' ≤ c && c ≤ 'Z'

def isLowerAZ (c : Char) : Bool := 'a' ≤ c && c ≤ 'z'

def isAlphaAZ (c : Char) : Bool := isUpperAZ c || isLowerAZ c

def isDigit09 (c : Char) : Bool := '0' ≤ c && c ≤ '9'

/-- JS regex word character: letter, digit or underscore. -/
def isWordChar (c : Char) : Bool := isAlphaAZ c || isDigit09 c || c == '_'

/-- ASCII whitespace as matched by JS regex whitespace and trim. -/
def isSpaceJS (c : Char) : Bool :=
  c == ' ' || c == '\t' || c == '\n' || c == '\r'

def charLower (c : Char) : Char :=
  if isUpperAZ c then Char.ofNat (c.toNat + 32) else c

def charUpper (c : Char) : Char :=
  if isLowerAZ c then Char.ofNat (c.toNat - 32) else c

/-- Model of JS String.prototype.toLowerCase on ASCII text. -/
def toLowerJS (s : String) : String := String.mk (s.data.map charLower)

/-- Model of JS String.prototype.trim. -/
def jsTrim (s : String) : String :=
  String.mk (((s.data.dropWhile isSpaceJS).reverse.dropWhile isSpaceJS).reverse)

/-- Substring test on character lists, model of JS String.prototype.includes. -/
def listContainsSub (pat : List Char) : List Char → Bool
  | [] => pat.isEmpty
  | c :: rest => pat.isPrefixOf (c :: rest) || listContainsSub pat rest

/-- Model of JS s.includes(pat). -/
def containsSub (s pat : String) : Bool := listContainsSub pat.data s.data

/-! ### Title template data (chatTitles.ts, titleTemplates) -/

def marketResearchTitles : List String :=
  ["Market Analysis", "Industry Research", "Market Trends", "Market Insights",
   "Industry Overview"]

def competitorAnalysisTitles : List String :=
  ["Competitor Analysis", "Competitive Intelligence", "Competition Research",
   "Market Competition", "Competitor Insights"]

def businessStrategyTitles : List String :=
  ["Business Strategy", "Strategic Planning", "Growth Strategy", "Business Planning",
   "Strategic Analysis"]

def generalBusinessTitles : List String :=
  ["Business Discussion", "Business Consultation", "Strategic Advice",
   "Business Insights", "Business Planning"]

def technologyTitles : List String :=
  ["Tech Strategy", "Technology Analysis", "Tech Market Research"]

def healthcareTitles : List String :=
  ["Healthcare Strategy", "Medical Industry Analysis", "Healthcare Insights"]

def financeTitles : List String :=
  ["Financial Strategy", "Fintech Analysis", "Financial Planning"]

def retailTitles : List String :=
  ["Retail Strategy", "E-commerce Analysis", "Retail Insights"]

def manufacturingTitles : List String :=
  ["Manufacturing Strategy", "Industrial Analysis", "Production Planning"]

def educationTitles : List String :=
  ["EdTech Strategy", "Education Analysis", "Learning Solutions"]

def consultingTitles : List String :=
  ["Consulting Strategy", "Professional Services", "Advisory Planning"]

/-- Key lookup in titleTemplates.industry_specific; none when the key is absent. -/
def industryTemplates (ind : String) : Option (List String) :=
  if ind = "technology" then some technologyTitles
  else if ind = "healthcare" then some healthcareTitles
  else if ind = "finance" then some financeTitles
  else if ind = "retail" then some retailTitles
  else if ind = "manufacturing" then some manufacturingTitles
  else if ind = "education" then some educationTitles
  else if ind = "consulting" then some consultingTitles
  else none

/-- Key lookup titleTemplates[topic] guarded by Array.isArray: the only keys
holding arrays are the four below; startup and marketing have no entry, and
industry_specific is an object, not an array, so it yields none here. -/
def topicTemplates (topic : String) : Option (List String) :=
  if topic = "market_research" then some marketResearchTitles
  else if topic = "competitor_analysis" then some competitorAnalysisTitles
  else if topic = "business_strategy" then some businessStrategyTitles
  else if topic = "general_business" then some generalBusinessTitles
  else none

/-! ### Topic and industry extraction (chatTitles.ts) -/

/-- extractTopics: ordered substring checks on the lower-cased message. -/
def extractTopics (message : String) : List String :=
  let m := toLowerJS message
  (if containsSub m "market" || containsSub m "industry" then ["market_research"] else []) ++
  (if containsSub m "competitor" || containsSub m "competition" then ["competitor_analysis"] else []) ++
  (if containsSub m "strategy" || containsSub m "plan" then ["business_strategy"] else []) ++
  (if containsSub m "startup" || containsSub m "launch" then ["startup"] else []) ++
  (if containsSub m "marketing" || containsSub m "brand" then ["marketing"] else [])

structure BusinessContext where
  company : Option String := none
  industry : Option String := none
  business_type : Option String := none
  company_size : Option String := none
deriving DecidableEq

/-- The industries array scanned, in source order, by extractIndustry. -/
def industriesList : List String :=
  ["technology", "tech", "software", "saas",
   "healthcare", "medical", "health",
   "finance", "financial", "fintech", "banking",
   "retail", "e-commerce", "ecommerce",
   "manufacturing", "industrial",
   "education", "edtech",
   "consulting", "professional services",
   "real estate", "construction",
   "hospitality", "travel",
   "energy", "renewable"]

/-- The if-chain of per-keyword canonical names inside the extractIndustry
loop body, applied to whichever keyword matched first. -/
def normalizeIndustry (industry : String) : String :=
  if industry = "tech" ∨ industry = "software" ∨ industry = "saas" then "technology"
  else if industry = "medical" ∨ industry = "health" then "healthcare"
  else if industry = "financial" ∨ industry = "fintech" ∨ industry = "banking" then "finance"
  else if industry = "e-commerce" ∨ industry = "ecommerce" then "retail"
  else if industry = "industrial" then "manufacturing"
  else if industry = "edtech" then "education"
  else if industry = "professional services" then "consulting"
  else industry

/-- extractIndustry: the business context industry field, when present and
truthy (non-empty), is returned lower-cased at once; otherwise the first
member of industriesList occurring in the lower-cased message is returned
through normalizeIndustry, and none when no keyword occurs. -/
def extractIndustry (message : String) (businessContext : Option BusinessContext) :
    Option String :=
  let lowerMessage := toLowerJS message
  let fromContext : Option String :=
    match businessContext with
    | some bc =>
      match bc.industry with
      | some ind => if ind ≠ "" then some (toLowerJS ind) else none
      | none => none
    | none => none
  match fromContext with
  | some ind => some ind
  | none => (industriesList.find? (fun ind => containsSub lowerMessage ind)).map normalizeIndustry

/-! ### The capitalized-phrase regex of generateSmartChatTitle

The source matches the message (with global flag, taking match zero) against
a word-bounded run of capitalized words, each of at least two letters,
separated by whitespace.  The functions below implement that scan directly:
a candidate starts at an upper-case letter preceded by a non-word character
or the start of the string; the base word and then whitespace-plus-word
groups are consumed greedily; the trailing word boundary forces dropping the
last group (or rejecting the candidate) when the next character is a word
character. -/

/-- One capitalized word of at least two letters, with the rest of the input. -/
def capWord (cs : List Char) : Option (List Char × List Char) :=
  match cs with
  | [] => none
  | c :: _ =>
    let w := cs.takeWhile isAlphaAZ
    if isUpperAZ c && 2 ≤ w.length then some (w, cs.dropWhile isAlphaAZ) else none

/-- Greedy whitespace-plus-capitalized-word groups; fuel bounds the recursion
(each iteration consumes at least one character, so input length is enough). -/
def capGroups : Nat → List Char → List (List Char) × List Char
  | 0, cs => ([], cs)
  | Nat.succ fuel, cs =>
    let sp := cs.takeWhile isSpaceJS
    let rest := cs.dropWhile isSpaceJS
    if sp.isEmpty then ([], cs)
    else
      match capWord rest with
      | some (w, rest2) =>
        let gw := capGroups fuel rest2
        ((sp ++ w) :: gw.1, gw.2)
      | none => ([], cs)

/-- Attempt the phrase match at the current position (start boundary already
checked by the caller). -/
def matchAt (cs : List Char) : Option (List Char) :=
  match capWord cs with
  | none => none
  | some (w, rest) =>
    let gw := capGroups rest.length rest
    match gw.2.head? with
    | none => some (w ++ gw.1.flatten)
    | some c =>
      if isWordChar c then
        match gw.1 with
        | [] => none
        | _ :: _ => some (w ++ gw.1.dropLast.flatten)
      else some (w ++ gw.1.flatten)

/-- Left-to-right scan for the first match; the Bool records whether the
previous character was a word character (for the leading word boundary). -/
def scanMatch : List Char → Bool → Option (List Char)
  | [], _ => none
  | c :: rest, prevWord =>
    if isUpperAZ c && !prevWord then
      match matchAt (c :: rest) with
      | some m => some m
      | none => scanMatch rest (isWordChar c)
    else scanMatch rest (isWordChar c)

/-- First capitalized phrase of the raw message, as used for company names. -/
def firstCapPhrase (s : String) : Option String :=
  (scanMatch s.data false).map String.mk

/-! ### generateSmartChatTitle (chatTitles.ts) -/

/-- Uniform pick from a template array: index Math.floor(Math.random() * n)
is modelled as r % n. -/
def pick (templates : List String) (r : Nat) : String :=
  templates.getD (r % templates.length) ""

/-- The company-name composition and general fallback at the end of
generateSmartChatTitle (reached when neither an industry-specific nor a
topic template array applies). -/
def companyOrGeneralTitle (firstMessage : String) (topics : List String) (r : Nat) :
    String :=
  match firstCapPhrase firstMessage with
  | some companyName =>
    if topics.contains "competitor_analysis" then companyName ++ " Analysis"
    else if topics.contains "market_research" then companyName ++ " Market Research"
    else companyName ++ " Strategy"
  | none => pick generalBusinessTitles r

/-- The topic-template step of generateSmartChatTitle: taken when topics is
non-empty and the primary (first) topic owns a template array. -/
def topicTitle (firstMessage : String) (topics : List String) (r : Nat) : String :=
  match topics with
  | [] => companyOrGeneralTitle firstMessage [] r
  | primaryTopic :: rest =>
    match topicTemplates primaryTopic with
    | some templates => pick templates r
    | none => companyOrGeneralTitle firstMessage (primaryTopic :: rest) r

/-- generateSmartChatTitle.  The source computes the topic list and the
industry eagerly and then falls through industry-specific templates, topic
templates, company-name composition and the general pool, in that order. -/
def generateSmartChatTitle (firstMessage : String) (businessContext : Option BusinessContext)
    (r : Nat) : String :=
  match (extractIndustry firstMessage businessContext).bind industryTemplates with
  | some industryTemplateList => pick industryTemplateList r
  | none => topicTitle firstMessage (extractTopics firstMessage) r

/-! ### generateTitleFromContent (chatTitles.ts) -/

def stopWords : List String :=
  ["what", "how", "when", "where", "why", "the", "and", "but", "for", "with"]

/-- JS split on a single space character, keeping empty fragments. -/
def splitOnSpace : List Char → List (List Char)
  | [] => [[]]
  | c :: rest =>
    match splitOnSpace rest with
    | [] => [[]]
    | w :: ws => if c == ' ' then [] :: w :: ws else (c :: w) :: ws

/-- charAt(0).toUpperCase() + slice(1). -/
def capitalizeFirst (s : String) : String :=
  match s.data with
  | [] => ""
  | c :: rest => String.mk (charUpper c :: rest)

/-- Array joining with a single space. -/
def joinWithSpace : List String → String
  | [] => ""
  | [w] => w
  | w :: ws => w ++ " " ++ joinWithSpace ws

/-- generateTitleFromContent: fixed phrase patterns, then the first three
significant words, then the primary heuristic as final fallback. -/
def generateTitleFromContent (message : String) (r : Nat) : String :=
  let lowerMessage := toLowerJS message
  if containsSub lowerMessage "what" && containsSub lowerMessage "trend" then
    "Market Trends Analysis"
  else if containsSub lowerMessage "who" && containsSub lowerMessage "competitor" then
    "Competitor Identification"
  else if containsSub lowerMessage "how" && containsSub lowerMessage "grow" then
    "Growth Strategy"
  else if containsSub lowerMessage "analyze" && containsSub lowerMessage "market" then
    "Market Analysis"
  else if containsSub lowerMessage "business plan" then
    "Business Planning"
  else if containsSub lowerMessage "go-to-market" || containsSub lowerMessage "gtm" then
    "Go-to-Market Strategy"
  else if containsSub lowerMessage "pricing" then
    "Pricing Strategy"
  else if containsSub lowerMessage "customer" then
    "Customer Strategy"
  else if containsSub lowerMessage "revenue" then
    "Revenue Strategy"
  else if containsSub lowerMessage "funding" || containsSub lowerMessage "investment" then
    "Funding Strategy"
  else
    let words := ((splitOnSpace message.data).map String.mk).filter
      (fun word => decide (3 < word.length) && !(stopWords.contains (toLowerJS word)))
    if 2 ≤ words.length then capitalizeFirst (joinWithSpace (words.take 3))
    else generateSmartChatTitle message none r

/-! ### Creative titles (chatTitles.ts) -/

def creativeTitles : List String :=
  ["Business Insights Session",
   "Strategic Planning Chat",
   "Market Intelligence Brief",
   "Competitive Analysis Deep Dive",
   "Growth Strategy Workshop",
   "Business Intelligence Consultation",
   "Strategic Advisory Session",
   "Market Research Discussion",
   "Business Development Chat",
   "Innovation Strategy Talk",
   "Digital Transformation Planning",
   "Revenue Optimization Session",
   "Customer Strategy Workshop",
   "Operational Excellence Planning",
   "Investment Strategy Discussion"]

def getRandomCreativeTitle (r : Nat) : String := pick creativeTitles r

/-! ### Chat page state and handlers (ChatPage component) -/

inductive Role where
  | user
  | assistant
deriving DecidableEq

structure ChatMessage where
  id : Nat
  content : String
  role : Role
  created_at : Nat
  tools_used : Option (List String) := none
deriving DecidableEq

structure ChatSession where
  id : Nat
  session_name : String
deriving DecidableEq

structure ChatResponse where
  response : String
  tools_used : Option (List String) := none
deriving DecidableEq

/-- The component state touched by the send and rename handlers. -/
structure ChatState where
  session : Option ChatSession
  messages : List ChatMessage
  newMessage : String
  isSending : Bool
  isTyping : Bool
  hasRenamedSession : Bool
deriving DecidableEq

/-- The literal fallback text appended when the send call fails. -/
def fallbackErrorText : String :=
  "Sorry, I encountered an error processing your message. Please try again."

/-- renameSessionBasedOnMessage.  The session-update API call is passed in as
a function of session id and new name; its failure is caught, in which case
the local session keeps its id and receives a freshly generated title (the
catch branch calls the title generator again, without business context, with
a fresh random draw r2).  Both branches set the has-renamed flag. -/
def renameSessionBasedOnMessage (st : ChatState) (message : String)
    (userCtx : BusinessContext)
    (updateSessionApi : Nat → String → Except Unit ChatSession) (r r2 : Nat) :
    ChatState :=
  match st.session with
  | none => st
  | some s =>
    if st.hasRenamedSession then st
    else
      let smartTitle := generateSmartChatTitle message (some userCtx) r
      match updateSessionApi s.id smartTitle with
      | Except.ok updatedSession =>
        { st with session := some updatedSession, hasRenamedSession := true }
      | Except.error _ =>
        { st with
            session := some { s with
              session_name := generateSmartChatTitle message none r2 },
            hasRenamedSession := true }

/-- Result of one handleSendMessage call, with flags recording whether the
rename step and the send-message API call were reached. -/
structure SendMessageResult where
  state : ChatState
  renameCalled : Bool
  sendApiCalled : Bool
deriving DecidableEq

/-- handleSendMessage.  Guard, optimistic user-message append, rename on
first message (the emptiness check reads the message list captured before
the append, as the source closure does), send call with caught failure, and
the finally block clearing the in-flight flags.  The function is total: the
try/catch around the send call and the catch inside the rename step mean no
failure of either collaborator escapes to the caller. -/
def handleSendMessage (st : ChatState) (sessionId : Option Nat)
    (userCtx : BusinessContext)
    (updateSessionApi : Nat → String → Except Unit ChatSession)
    (sendMessageApi : Except Unit ChatResponse) (r r2 now : Nat) :
    SendMessageResult :=
  if jsTrim st.newMessage = "" ∨ st.isSending = true ∨ sessionId = none then
    { state := st, renameCalled := false, sendApiCalled := false }
  else
    let messageContent := jsTrim st.newMessage
    let userMessage : ChatMessage :=
      { id := now, content := messageContent, role := Role.user, created_at := now }
    let st1 : ChatState :=
      { st with newMessage := "", isSending := true, isTyping := true,
                messages := st.messages ++ [userMessage] }
    let renameCalled := st.messages.isEmpty
    let st2 : ChatState :=
      if renameCalled then
        renameSessionBasedOnMessage st1 messageContent userCtx updateSessionApi r r2
      else st1
    let st3 : ChatState :=
      match sendMessageApi with
      | Except.ok resp =>
        { st2 with messages := st2.messages ++
            [{ id := now + 1, content := resp.response, role := Role.assistant,
               created_at := now, tools_used := resp.tools_used }] }
      | Except.error _ =>
        { st2 with messages := st2.messages ++
            [{ id := now + 1, content := fallbackErrorText, role := Role.assistant,
               created_at := now }] }
    { state := { st3 with isSending := false, isTyping := false },
      renameCalled := renameCalled, sendApiCalled := true }

/-! ### New-chat session creation (DashboardPage handleNewChat and the chat
page createNewSession): both create the session with a random creative
title as its name. -/

structure CreateSessionRequest where
  session_name : String
deriving DecidableEq

def handleNewChat (r : Nat) : CreateSessionRequest :=
  { session_name := getRandomCreativeTitle r }

def createNewSession (r : Nat) : CreateSessionRequest :=
  { session_name := getRandomCreativeTitle r }

/-! ### Traces of send turns, for the rename-at-most-once property -/

/-- The per-turn inputs: the text typed into the form and the collaborator
behaviors for this turn. -/
structure SendInput where
  typed : String
  sessionId : Option Nat
  userCtx : BusinessContext
  updateSessionApi : Nat → String → Except Unit ChatSession
  sendMessageApi : Except Unit ChatResponse
  r : Nat
  r2 : Nat
  now : Nat

/-- One form submission: the typed text becomes the input value, then the
handler runs. -/
def sendStep (st : ChatState) (inp : SendInput) : SendMessageResult :=
  handleSendMessage { st with newMessage := inp.typed } inp.sessionId inp.userCtx
    inp.updateSessionApi inp.sendMessageApi inp.r inp.r2 inp.now

/-- Run a sequence of send turns; the second component counts the turns on
which the rename step was invoked. -/
def runSends (st : ChatState) : List SendInput → ChatState × Nat
  | [] => (st, 0)
  | inp :: rest =>
    ((runSends (sendStep st inp).state rest).1,
     (if (sendStep st inp).renameCalled then 1 else 0) +
       (runSends (sendStep st inp).state rest).2)

/-! ### Sample data used by the witness theorems -/

def sampleSession : ChatSession := { id := 1, session_name := "Business Chat" }

def emptyChatState : ChatState :=
  { session := some sampleSession, messages := [], newMessage := "",
    isSending := false, isTyping := false, hasRenamedSession := false }

def busyChatState : ChatState :=
  { session := some sampleSession,
    messages := [{ id := 7, content := "hi", role := Role.user, created_at := 7 }],
    newMessage := "", isSending := false, isTyping := false,
    hasRenamedSession := true }

def okUpdateApi : Nat → String → Except Unit ChatSession :=
  fun i n => Except.ok ({ id := i, session_name := n } : ChatSession)

def failUpdateApi : Nat → String → Except Unit ChatSession :=
  fun _ _ => Except.error ()

def sampleInput : SendInput :=
  { typed := "hello market", sessionId := some 1, userCtx := {},
    updateSessionApi := okUpdateApi,
    sendMessageApi := Except.ok ({ response := "hi there" } : ChatResponse),
    r := 0, r2 := 0, now := 100 }

def typedChatState : ChatState := { emptyChatState with newMessage := "hello market" }

def wsChatState : ChatState := { emptyChatState with newMessage := "   " }

/-! ### Helper lemmas about strings and template picks -/

theorem string_length_pos (s : String) (h : s ≠ "") : 0 < s.length := by
  cases s with
  | mk data =>
    cases data with
    | nil => exact absurd rfl h
    | cons c cs => simp [String.length]

theorem string_append_ne_empty (s t : String) (h : t ≠ "") : s ++ t ≠ "" := by
  cases s with
  | mk sd =>
    cases t with
    | mk td =>
      intro hc
      have hd : sd ++ td = [] := congrArg String.data hc
      have htd : td = [] := (List.append_eq_nil.mp hd).2
      exact h (by simp [htd])

theorem pick_mem (l : List String) (r : Nat) (h : l ≠ []) : pick l r ∈ l := by
  have hpos : 0 < l.length := List.length_pos.mpr h
  have hlt : r % l.length < l.length := Nat.mod_lt _ hpos
  unfold pick
  rw [List.getD_eq_getElem l "" hlt]
  exact List.getElem_mem hlt

theorem pick_ne_empty (l : List String) (r : Nat) (h1 : l ≠ [])
    (h2 : ∀ x ∈ l, x ≠ "") : pick l r ≠ "" :=
  h2 _ (pick_mem l r h1)

theorem industryTemplates_spec (ind : String) (ts : List String)
    (h : industryTemplates ind = some ts) : ts ≠ [] ∧ ∀ x ∈ ts, x ≠ "" := by
  unfold industryTemplates at h
  split_ifs at h <;>
    first
    | (injection h with h2; subst h2; exact ⟨by decide, by decide⟩)
    | simp at h

theorem topicTemplates_spec (topic : String) (ts : List String)
    (h : topicTemplates topic = some ts) : ts ≠ [] ∧ ∀ x ∈ ts, x ≠ "" := by
  unfold topicTemplates at h
  split_ifs at h <;>
    first
    | (injection h with h2; subst h2; exact ⟨by decide, by decide⟩)
    | simp at h

theorem companyOrGeneralTitle_ne_empty (msg : String) (topics : List String) (r : Nat) :
    companyOrGeneralTitle msg topics r ≠ "" := by
  unfold companyOrGeneralTitle
  split
  · split_ifs <;> exact string_append_ne_empty _ _ (by decide)
  · exact pick_ne_empty _ _ (by decide) (by decide)

theorem topicTitle_ne_empty (msg : String) (topics : List String) (r : Nat) :
    topicTitle msg topics r ≠ "" := by
  unfold topicTitle
  split
  · apply companyOrGeneralTitle_ne_empty
  · split
    · rename_i templates htpl
      have hspec := topicTemplates_spec _ _ htpl
      exact pick_ne_empty _ _ hspec.1 hspec.2
    · apply companyOrGeneralTitle_ne_empty

theorem generateSmartChatTitle_ne_empty (msg : String) (bc : Option BusinessContext)
    (r : Nat) : generateSmartChatTitle msg bc r ≠ "" := by
  unfold generateSmartChatTitle
  split
  · rename_i ts hts
    obtain ⟨ind, hind, hit⟩ := Option.bind_eq_some.mp hts
    have hspec := industryTemplates_spec ind ts hit
    exact pick_ne_empty _ _ hspec.1 hspec.2
  · apply topicTitle_ne_empty

/-! ### Claim theorems: the title heuristics -/

/-- Claim C2: for every input string (including the empty string), every
optional business context and every random draw, generateSmartChatTitle
returns a non-empty string (stated as positive length); the supporting
lemmas walk every branch of the function - industry pick, topic pick,
capitalized-phrase composition and the general-business fallback - and show
each produces a non-empty result. -/
theorem claim_C2 (msg : String) (bc : Option BusinessContext) (r : Nat) :
    0 < (generateSmartChatTitle msg bc r).length :=
  string_length_pos _ (generateSmartChatTitle_ne_empty msg bc r)

/-- Claim C4 counterexample: on the message about market trends in fintech
with no business context, the detected industry is technology, because the
keyword tech, a substring of fintech, is checked before fintech in the
industries array; the resulting title (draw 0) is Tech Strategy, which is
not in the finance title set. -/
theorem claim_C4_counterexample :
    extractIndustry "What are the market trends in fintech?" none = some "technology" ∧
    generateSmartChatTitle "What are the market trends in fintech?" none 0 = "Tech Strategy" ∧
    (financeTitles.contains
      (generateSmartChatTitle "What are the market trends in fintech?" none 0)) = false :=
  ⟨by decide, by decide, by decide⟩

/-- Claim C4 (amended): industry detection does take precedence over the
generic market-research topic titles for this message, but the industry the
code detects is technology (via the tech substring of fintech), so for
every random draw the title is a member of the technology title set, not
the finance one. -/
theorem claim_C4 (r : Nat) :
    generateSmartChatTitle "What are the market trends in fintech?" none r ∈
      technologyTitles := by
  have h : generateSmartChatTitle "What are the market trends in fintech?" none r
      = pick technologyTitles r := rfl
  rw [h]
  exact pick_mem _ _ (by decide)

/-- Claim C5 counterexample: a business context whose industry field is
fintech is detected as fintech itself, not as the canonical finance: the
normalization map is not applied to the context-supplied field (the source
returns businessContext.industry.toLowerCase() at once). -/
theorem claim_C5_counterexample :
    extractIndustry "hello" (some { industry := some "fintech" }) = some "fintech" ∧
    ((extractIndustry "hello" (some { industry := some "fintech" }))
      == some "finance") = false :=
  ⟨by decide, by decide⟩

/-- Claim C5 (amended): a non-empty context industry field is preferred over
any keyword inferred from the message and is returned lower-cased but NOT
normalized; the normalization map applies only to industry keywords found
in the message (for example banking in the message is detected as finance). -/
theorem claim_C5 (message : String) (bc : BusinessContext) (ind : String)
    (h1 : bc.industry = some ind) (h2 : ind ≠ "") :
    extractIndustry message (some bc) = some (toLowerJS ind) ∧
    extractIndustry "banking apps" none = some "finance" := by
  constructor
  · unfold extractIndustry
    simp [h1, h2]
  · decide

/-- Claim C5 witness: with context industry Fintech the message keywords
(tech would infer technology) are ignored and the lower-cased context field
is returned unnormalized. -/
theorem claim_C5_witness :
    ({ industry := some "Fintech" } : BusinessContext).industry = some "Fintech" ∧
    "Fintech" ≠ "" ∧
    (extractIndustry "tech stuff" (some { industry := some "Fintech" })
        = some (toLowerJS "Fintech") ∧
     extractIndustry "banking apps" none = some "finance") :=
  ⟨rfl, by decide,
   claim_C5 "tech stuff" { industry := some "Fintech" } "Fintech" rfl (by decide)⟩

/-- Claim C6 counterexample: for the message startup, no industry is
detected and the primary topic is startup, but titleTemplates holds no
startup array, so the title falls through to the general business pool
(draw 0 gives Business Discussion) instead of a startup topic set. -/
theorem claim_C6_counterexample :
    extractIndustry "startup" none = none ∧
    extractTopics "startup" = ["startup"] ∧
    topicTemplates "startup" = none ∧
    generateSmartChatTitle "startup" none 0 = "Business Discussion" :=
  ⟨by decide, by decide, by decide, by decide⟩

/-- Claim C6 (amended): when no industry is detected and the primary
(first-detected) topic owns a template array - true for market_research,
competitor_analysis and business_strategy, but not for startup or
marketing, which have no title set and fall through - the returned title is
a member of that array. -/
theorem claim_C6 (msg : String) (r : Nat) (t : String) (ts : List String)
    (hind : extractIndustry msg none = none)
    (htop : (extractTopics msg).head? = some t)
    (hts : topicTemplates t = some ts) :
    generateSmartChatTitle msg none r ∈ ts := by
  have hb : (extractIndustry msg none).bind industryTemplates = none := by
    rw [hind]; rfl
  have he : generateSmartChatTitle msg none r = topicTitle msg (extractTopics msg) r := by
    unfold generateSmartChatTitle
    rw [hb]
  cases hl : extractTopics msg with
  | nil =>
    rw [hl] at htop
    exact absurd htop (by simp)
  | cons t0 rest =>
    rw [hl] at htop
    simp only [List.head?_cons, Option.some.injEq] at htop
    subst htop
    rw [he, hl]
    simp only [topicTitle]
    rw [hts]
    show pick ts r ∈ ts
    exact pick_mem _ _ (topicTemplates_spec _ _ hts).1

/-- Claim C6 witness: the theorem applied to the message competitor, whose
primary topic competitor_analysis owns a template array. -/
theorem claim_C6_witness :
    extractIndustry "competitor" none = none ∧
    (extractTopics "competitor").head? = some "competitor_analysis" ∧
    topicTemplates "competitor_analysis" = some competitorAnalysisTitles ∧
    generateSmartChatTitle "competitor" none 0 ∈ competitorAnalysisTitles :=
  ⟨by decide, by decide, by decide,
   claim_C6 "competitor" 0 "competitor_analysis" competitorAnalysisTitles
     (by decide) (by decide) (by decide)⟩

/-- Claim C7: the random index is always within the bounds of the creative
title pool, the picked title is a member of the pool, every element of the
pool is non-empty, and both the dashboard new-chat request and the chat
page createNewSession request carry that title as the session name, so a
newly created session display name is never empty. -/
theorem claim_C7 (r : Nat) :
    r % creativeTitles.length < creativeTitles.length ∧
    (handleNewChat r).session_name ∈ creativeTitles ∧
    0 < (handleNewChat r).session_name.length ∧
    (createNewSession r).session_name = getRandomCreativeTitle r ∧
    creativeTitles.all (fun t => !(t == "")) = true := by
  refine ⟨Nat.mod_lt _ (by decide), pick_mem _ _ (by decide), ?_, rfl, by decide⟩
  exact string_length_pos _ (pick_ne_empty _ _ (by decide) (by decide))

/-- Claim C8: on the message business plan for Acme Corp the content
pattern check for the business plan phrase fires, for every random draw,
before the significant-word extraction and before any fall-through to the
primary heuristic, even though a capitalized phrase (Acme Corp) would be
available to the proper-noun extraction. -/
theorem claim_C8 (r : Nat) :
    generateTitleFromContent "business plan for Acme Corp" r = "Business Planning" ∧
    firstCapPhrase "business plan for Acme Corp" = some "Acme Corp" :=
  ⟨rfl, by decide⟩

/-! ### Lemmas about the send and rename handlers -/

theorem rename_messages (st : ChatState) (message : String) (userCtx : BusinessContext)
    (api : Nat → String → Except Unit ChatSession) (r r2 : Nat) :
    (renameSessionBasedOnMessage st message userCtx api r r2).messages = st.messages := by
  unfold renameSessionBasedOnMessage
  split
  · rfl
  · split
    · rfl
    · dsimp only
      split <;> rfl

theorem handleSend_renameCalled_empty (st : ChatState) (sid : Option Nat)
    (userCtx : BusinessContext) (api : Nat → String → Except Unit ChatSession)
    (send : Except Unit ChatResponse) (r r2 now : Nat) :
    (handleSendMessage st sid userCtx api send r r2 now).renameCalled = true →
      st.messages = [] := by
  unfold handleSendMessage
  split
  · intro h
    exact absurd h (by simp)
  · intro h
    simp only at h
    exact List.isEmpty_iff.mp h

theorem handleSend_messages_spec (st : ChatState) (sid : Option Nat)
    (userCtx : BusinessContext) (api : Nat → String → Except Unit ChatSession)
    (send : Except Unit ChatResponse) (r r2 now : Nat) :
    ((handleSendMessage st sid userCtx api send r r2 now).renameCalled = false ∧
      (handleSendMessage st sid userCtx api send r r2 now).state.messages = st.messages)
    ∨ (∃ u a, (handleSendMessage st sid userCtx api send r r2 now).state.messages
        = st.messages ++ [u, a]) := by
  unfold handleSendMessage
  split
  · exact Or.inl ⟨rfl, rfl⟩
  · right
    cases hsend : send with
    | ok resp =>
      cases he : st.messages.isEmpty with
      | true =>
        refine ⟨{ id := now, content := jsTrim st.newMessage, role := Role.user,
                  created_at := now },
                { id := now + 1, content := resp.response, role := Role.assistant,
                  created_at := now, tools_used := resp.tools_used }, ?_⟩
        simp [he, rename_messages]
      | false =>
        refine ⟨{ id := now, content := jsTrim st.newMessage, role := Role.user,
                  created_at := now },
                { id := now + 1, content := resp.response, role := Role.assistant,
                  created_at := now, tools_used := resp.tools_used }, ?_⟩
        simp [he]
    | error e =>
      cases he : st.messages.isEmpty with
      | true =>
        refine ⟨{ id := now, content := jsTrim st.newMessage, role := Role.user,
                  created_at := now },
                { id := now + 1, content := fallbackErrorText, role := Role.assistant,
                  created_at := now }, ?_⟩
        simp [he, rename_messages]
      | false =>
        refine ⟨{ id := now, content := jsTrim st.newMessage, role := Role.user,
                  created_at := now },
                { id := now + 1, content := fallbackErrorText, role := Role.assistant,
                  created_at := now }, ?_⟩
        simp [he]

theorem sendStep_renameCalled_empty (st : ChatState) (inp : SendInput) :
    (sendStep st inp).renameCalled = true → st.messages = [] :=
  handleSend_renameCalled_empty { st with newMessage := inp.typed } inp.sessionId
    inp.userCtx inp.updateSessionApi inp.sendMessageApi inp.r inp.r2 inp.now

theorem sendStep_messages_spec (st : ChatState) (inp : SendInput) :
    ((sendStep st inp).renameCalled = false ∧
      (sendStep st inp).state.messages = st.messages)
    ∨ (∃ u a, (sendStep st inp).state.messages = st.messages ++ [u, a]) :=
  handleSend_messages_spec { st with newMessage := inp.typed } inp.sessionId
    inp.userCtx inp.updateSessionApi inp.sendMessageApi inp.r inp.r2 inp.now

theorem sendStep_preserves_nonempty (st : ChatState) (inp : SendInput)
    (h : st.messages ≠ []) :
    (sendStep st inp).state.messages ≠ [] ∧ (sendStep st inp).renameCalled = false := by
  constructor
  · rcases sendStep_messages_spec st inp with ⟨_, hm⟩ | ⟨u, a, hm⟩
    · rw [hm]; exact h
    · rw [hm]; simp
  · cases hr : (sendStep st inp).renameCalled
    · rfl
    · exact absurd (sendStep_renameCalled_empty st inp hr) h

theorem sendStep_rename_nonempty (st : ChatState) (inp : SendInput)
    (h : (sendStep st inp).renameCalled = true) :
    (sendStep st inp).state.messages ≠ [] := by
  rcases sendStep_messages_spec st inp with ⟨hf, _⟩ | ⟨u, a, hm⟩
  · rw [h] at hf
    exact absurd hf (by simp)
  · rw [hm]; simp

theorem runSends_count (inps : List SendInput) : ∀ st : ChatState,
    (runSends st inps).2 ≤ 1 ∧ (st.messages ≠ [] → (runSends st inps).2 = 0) := by
  induction inps with
  | nil =>
    intro st
    exact ⟨by simp [runSends], fun _ => by simp [runSends]⟩
  | cons inp rest ih =>
    intro st
    have hcount : (runSends st (inp :: rest)).2
        = (if (sendStep st inp).renameCalled then 1 else 0)
          + (runSends (sendStep st inp).state rest).2 := rfl
    cases hr : (sendStep st inp).renameCalled with
    | false =>
      constructor
      · rw [hcount, hr]
        simpa using (ih (sendStep st inp).state).1
      · intro hne
        rw [hcount, hr]
        have h0 := (ih (sendStep st inp).state).2
          (sendStep_preserves_nonempty st inp hne).1
        simpa using h0
    | true =>
      constructor
      · rw [hcount, hr]
        have h0 := (ih (sendStep st inp).state).2 (sendStep_rename_nonempty st inp hr)
        simp [h0]
      · intro hne
        have hf := (sendStep_preserves_nonempty st inp hne).2
        rw [hf] at hr
        exact absurd hr (by simp)

/-! ### Claim theorems: the send and rename handlers -/

/-- Claim C1: in a turn whose guard passes (non-blank trimmed input, no send
in flight, session id present) and whose completion collaborator call
fails, exactly one new assistant-role message is appended after the user
message, its content is the literal fallback string, and the in-flight
flags are cleared by the finally step; the handler is total (the failure is
caught), so no exception escapes to the caller. -/
theorem claim_C1 (st : ChatState) (sid : Nat) (userCtx : BusinessContext)
    (api : Nat → String → Except Unit ChatSession) (r r2 now : Nat)
    (hmsg : jsTrim st.newMessage ≠ "") (hs : st.isSending = false) :
    (handleSendMessage st (some sid) userCtx api (Except.error ()) r r2 now).state.messages
      = st.messages ++
        [{ id := now, content := jsTrim st.newMessage, role := Role.user,
           created_at := now },
         { id := now + 1, content := fallbackErrorText, role := Role.assistant,
           created_at := now }] ∧
    ((handleSendMessage st (some sid) userCtx api (Except.error ()) r r2 now).state.messages.filter
        (fun m => m.role == Role.assistant)).length
      = (st.messages.filter (fun m => m.role == Role.assistant)).length + 1 ∧
    (handleSendMessage st (some sid) userCtx api (Except.error ()) r r2 now).state.isSending
      = false ∧
    (handleSendMessage st (some sid) userCtx api (Except.error ()) r r2 now).state.isTyping
      = false := by
  have hguard : ¬(jsTrim st.newMessage = "" ∨ st.isSending = true ∨
      (some sid : Option Nat) = none) := by
    push_neg
    exact ⟨hmsg, by simp [hs], by simp⟩
  have h1 : (handleSendMessage st (some sid) userCtx api (Except.error ()) r r2 now).state.messages
      = st.messages ++
        [{ id := now, content := jsTrim st.newMessage, role := Role.user,
           created_at := now },
         { id := now + 1, content := fallbackErrorText, role := Role.assistant,
           created_at := now }] := by
    unfold handleSendMessage
    rw [if_neg hguard]
    cases he : st.messages.isEmpty <;> simp [he, rename_messages]
  refine ⟨h1, ?_, ?_, ?_⟩
  · rw [h1, List.filter_append, List.length_append]
    rfl
  · unfold handleSendMessage
    rw [if_neg hguard]
  · unfold handleSendMessage
    rw [if_neg hguard]

/-- Claim C1 witness: the theorem applied to a concrete state with typed
text, an empty conversation and a failing send call. -/
theorem claim_C1_witness :
    jsTrim typedChatState.newMessage ≠ "" ∧
    typedChatState.isSending = false ∧
    (handleSendMessage typedChatState (some 1) {} okUpdateApi (Except.error ()) 0 0 100).state.messages
      = typedChatState.messages ++
        [{ id := 100, content := jsTrim typedChatState.newMessage, role := Role.user,
           created_at := 100 },
         { id := 100 + 1, content := fallbackErrorText, role := Role.assistant,
           created_at := 100 }] :=
  ⟨by decide, rfl, (claim_C1 typedChatState 1 {} okUpdateApi 0 0 100 (by decide) rfl).1⟩

/-- Claim C3: over any sequence of send turns the rename step is invoked at
most once; it is invoked only when the message list is empty at the moment
the turn starts (the first user message of the session); and from a state
that already has messages no turn ever invokes it again. -/
theorem claim_C3 (st : ChatState) (inps : List SendInput) (inp : SendInput) :
    (runSends st inps).2 ≤ 1 ∧
    (st.messages ≠ [] → (runSends st inps).2 = 0) ∧
    ((sendStep st inp).renameCalled = true → st.messages = []) :=
  ⟨(runSends_count inps st).1, (runSends_count inps st).2,
   sendStep_renameCalled_empty st inp⟩

/-- Claim C3 witness: a first send from an empty session invokes the rename
(and the trace count stays at most one), while a session that already has a
message never invokes it. -/
theorem claim_C3_witness :
    (runSends emptyChatState [sampleInput]).2 ≤ 1 ∧
    busyChatState.messages ≠ [] ∧
    (runSends busyChatState [sampleInput]).2 = 0 ∧
    (sendStep emptyChatState sampleInput).renameCalled = true ∧
    emptyChatState.messages = [] :=
  ⟨(claim_C3 emptyChatState [sampleInput] sampleInput).1,
   by decide,
   (claim_C3 busyChatState [sampleInput] sampleInput).2.1 (by decide),
   by decide,
   (claim_C3 emptyChatState [sampleInput] sampleInput).2.2 (by decide)⟩

/-- Claim C9: when the session-update call of the rename step fails, the
error is caught inside renameSessionBasedOnMessage (the function is total),
the local session still receives a generated name and the has-renamed flag
is set; and the rest of the chat turn - the messages appended and the fact
that the send call is reached - is identical whatever the rename API does. -/
theorem claim_C9 (st : ChatState) (s : ChatSession) (message : String)
    (userCtx : BusinessContext) (r r2 : Nat)
    (api api2 : Nat → String → Except Unit ChatSession)
    (sid : Option Nat) (send : Except Unit ChatResponse) (now : Nat)
    (hs : st.session = some s) (hr : st.hasRenamedSession = false)
    (hfail : api s.id (generateSmartChatTitle message (some userCtx) r) = Except.error ()) :
    renameSessionBasedOnMessage st message userCtx api r r2
      = { st with
            session := some { s with
              session_name := generateSmartChatTitle message none r2 },
            hasRenamedSession := true } ∧
    (handleSendMessage st sid userCtx api send r r2 now).state.messages
      = (handleSendMessage st sid userCtx api2 send r r2 now).state.messages ∧
    (handleSendMessage st sid userCtx api send r r2 now).sendApiCalled
      = (handleSendMessage st sid userCtx api2 send r r2 now).sendApiCalled := by
  refine ⟨?_, ?_, ?_⟩
  · simp only [renameSessionBasedOnMessage, hs, hr]
    simp [hfail]
  · unfold handleSendMessage
    by_cases hg : jsTrim st.newMessage = "" ∨ st.isSending = true ∨ sid = none
    · rw [if_pos hg, if_pos hg]
    · rw [if_neg hg, if_neg hg]
      cases hsend : send <;> cases he : st.messages.isEmpty <;>
        simp [he, rename_messages]
  · unfold handleSendMessage
    by_cases hg : jsTrim st.newMessage = "" ∨ st.isSending = true ∨ sid = none
    · rw [if_pos hg, if_pos hg]
    · rw [if_neg hg, if_neg hg]

/-- Claim C9 witness: the theorem applied to a concrete first-message state
with an always-failing session-update API. -/
theorem claim_C9_witness :
    typedChatState.session = some sampleSession ∧
    typedChatState.hasRenamedSession = false ∧
    failUpdateApi sampleSession.id
        (generateSmartChatTitle "hello market" (some {}) 0) = Except.error () ∧
    (renameSessionBasedOnMessage typedChatState "hello market" {} failUpdateApi 0 0
        = { typedChatState with
              session := some { sampleSession with
                session_name := generateSmartChatTitle "hello market" none 0 },
              hasRenamedSession := true } ∧
     (handleSendMessage typedChatState (some 1) {} failUpdateApi (Except.error ()) 0 0 100).state.messages
        = (handleSendMessage typedChatState (some 1) {} okUpdateApi (Except.error ()) 0 0 100).state.messages ∧
     (handleSendMessage typedChatState (some 1) {} failUpdateApi (Except.error ()) 0 0 100).sendApiCalled
        = (handleSendMessage typedChatState (some 1) {} okUpdateApi (Except.error ()) 0 0 100).sendApiCalled) :=
  ⟨rfl, rfl, rfl,
   claim_C9 typedChatState sampleSession "hello market" {} 0 0 failUpdateApi okUpdateApi
     (some 1) (Except.error ()) 100 rfl rfl rfl⟩

/-- Claim C10: whenever the trimmed input is empty, a send is in flight or
no session id is present, submitting the form is a no-op: the state is
returned unchanged, the rename step is not invoked and no send-message call
is made, so no whitespace-only user message is ever sent. -/
theorem claim_C10 (st : ChatState) (sessionId : Option Nat) (userCtx : BusinessContext)
    (api : Nat → String → Except Unit ChatSession) (send : Except Unit ChatResponse)
    (r r2 now : Nat)
    (h : jsTrim st.newMessage = "" ∨ st.isSending = true ∨ sessionId = none) :
    handleSendMessage st sessionId userCtx api send r r2 now
      = { state := st, renameCalled := false, sendApiCalled := false } := by
  unfold handleSendMessage
  rw [if_pos h]

/-- Claim C10 witness: the theorem applied to a state whose input is
whitespace only. -/
theorem claim_C10_witness :
    (jsTrim wsChatState.newMessage = "" ∨ wsChatState.isSending = true ∨
      (some 1 : Option Nat) = none) ∧
    handleSendMessage wsChatState (some 1) {} okUpdateApi
        (Except.ok ({ response := "hi there" } : ChatResponse)) 0 0 100
      = { state := wsChatState, renameCalled := false, sendApiCalled := false } :=
  ⟨Or.inl (by decide),
   claim_C10 wsChatState (some 1) {} okUpdateApi
     (Except.ok ({ response := "hi there" } : ChatResponse)) 0 0 100 (Or.inl (by decide))⟩

end M32
